import Mathlib

/- Verification development for the Finance-Insights chat client.

   The JavaScript sources are shallowly embedded:
   - JavaScript strings are modelled as lists of characters (Str).
   - Message/conversation objects become structures; absent JS fields are the
     defaults (empty text, none payloads, false flags, 0 timestamps).
   - localStorage and the backend are modelled as explicit state records;
     Date.now() / generateId() become explicit parameters of the operations.
   - JSON.parse is a platform primitive; it is left abstract (a parameter
     String to Option Frame / Option JsValue) except where a concrete fact
     about it is load-bearing, in which case a restricted model with a
     documenting comment is used. -/

set_option maxRecDepth 8000

/-- JavaScript strings are modelled as lists of characters. -/
abbrev Str := List Char

/-- A chat message record: the placeholder object built in App.jsx sendMessage
(lines 90-102) together with the fields MessageBubble.jsx destructures and the
fields the conversation context reads (role, content, timestamp). -/
structure ChatMessage where
  id : String
  role : String
  content : Str := []
  answer : Str := []
  displayedAnswer : Str := []
  chart : Option Str := none
  table : Option Str := none
  evidence : Option Str := none
  isStreaming : Bool := false
  isThinking : Bool := false
  isError : Bool := false
  timestamp : Int := 0
deriving DecidableEq, Repr

/-- The bot placeholder message created by sendMessage (App.jsx lines 90-102):
empty answer, thinking state, not yet streaming. -/
def initialBotMessage (id : String) : ChatMessage :=
  { id := id, role := "bot", answer := [], displayedAnswer := [],
    chart := none, table := none, evidence := none,
    isStreaming := false, isThinking := true, isError := false }

/-- One parsed stream event frame: the object JSON.parse yields from a
data-marked line, with its type tag and data payload.  Structured payloads
(tables, charts, evidence) are opaque here, so data is a single text field. -/
structure Frame where
  type : String
  data : Str
deriving DecidableEq, Repr

/-- The switch statement of the stream ingestion loop (App.jsx lines 145-170):
text replaces the accumulated answer and turns streaming on, table and chart
and evidence attach their payload, done ends the stream, anything else is
ignored (the default branch). -/
def applyFrame (m : ChatMessage) (f : Frame) : ChatMessage :=
  if f.type = "text" then
    { m with answer := f.data, isThinking := false, isStreaming := true }
  else if f.type = "table" then { m with table := some f.data }
  else if f.type = "chart" then { m with chart := some f.data }
  else if f.type = "evidence" then { m with evidence := some f.data }
  else if f.type = "done" then { m with isStreaming := false, isThinking := false }
  else m

/-- Folding the ingestion switch over a sequence of already-parsed frames. -/
def processFrames (m : ChatMessage) (fs : List Frame) : ChatMessage :=
  fs.foldl applyFrame m

/-- The data marker that starts every recognised stream line. -/
def dataMarker : Str := ("data: ").data

/-- Processing of one received line (App.jsx lines 140-174): only lines that
start with the data marker are considered; the rest of such a line is handed to
JSON.parse (abstract parameter parseFrame; none models a parse exception, which
the try/catch swallows).  All other lines leave the message untouched. -/
def processLine (parseFrame : Str → Option Frame) (m : ChatMessage) (line : Str) :
    ChatMessage :=
  if dataMarker.isPrefixOf line then
    match parseFrame (line.drop 6) with
    | some f => applyFrame m f
    | none => m
  else m

/-- MessageBubble.jsx line 125: user messages show content, bot messages show
the final answer directly (for Str, answer and the JS answer-or-empty-string
coincide). -/
def displayText (m : ChatMessage) : Str :=
  if m.role = "user" then m.content else m.answer

/-- App.jsx lines 58-61: once streaming has stopped, if answer is truthy
(non-empty) and displayedAnswer still differs, displayedAnswer is set to the
full answer in one update. -/
def typingSnap (m : ChatMessage) : ChatMessage :=
  if m.isStreaming = false ∧ m.answer ≠ [] ∧ m.displayedAnswer ≠ m.answer then
    { m with displayedAnswer := m.answer }
  else m

/-- The payload of the last text frame of a sequence, if any. -/
def lastTextData : List Frame → Option Str
  | [] => none
  | f :: fs =>
    match lastTextData fs with
    | some d => some d
    | none => if f.type = "text" then some f.data else none

theorem applyFrame_answer (m : ChatMessage) (f : Frame) :
    (applyFrame m f).answer = if f.type = "text" then f.data else m.answer := by
  unfold applyFrame
  split_ifs <;> rfl

theorem applyFrame_role (m : ChatMessage) (f : Frame) :
    (applyFrame m f).role = m.role := by
  unfold applyFrame
  split_ifs <;> rfl

theorem applyFrame_displayedAnswer (m : ChatMessage) (f : Frame) :
    (applyFrame m f).displayedAnswer = m.displayedAnswer := by
  unfold applyFrame
  split_ifs <;> rfl

theorem processFrames_role : ∀ (fs : List Frame) (m : ChatMessage),
    (processFrames m fs).role = m.role := by
  intro fs
  induction fs with
  | nil => intro m; rfl
  | cons f fs ih =>
    intro m
    have h : processFrames m (f :: fs) = processFrames (applyFrame m f) fs := rfl
    rw [h, ih, applyFrame_role]

theorem processFrames_displayedAnswer : ∀ (fs : List Frame) (m : ChatMessage),
    (processFrames m fs).displayedAnswer = m.displayedAnswer := by
  intro fs
  induction fs with
  | nil => intro m; rfl
  | cons f fs ih =>
    intro m
    have h : processFrames m (f :: fs) = processFrames (applyFrame m f) fs := rfl
    rw [h, ih, applyFrame_displayedAnswer]

theorem processFrames_answer : ∀ (fs : List Frame) (m : ChatMessage),
    (processFrames m fs).answer = (lastTextData fs).getD m.answer := by
  intro fs
  induction fs with
  | nil => intro m; rfl
  | cons f fs ih =>
    intro m
    have h : processFrames m (f :: fs) = processFrames (applyFrame m f) fs := rfl
    rw [h, ih]
    cases h2 : lastTextData fs with
    | some d => simp [lastTextData, h2]
    | none =>
      simp only [lastTextData, h2, Option.getD_none, applyFrame_answer]
      split_ifs <;> rfl

theorem processFrames_append_single (m : ChatMessage) (l : List Frame) (f : Frame) :
    processFrames m (l ++ [f]) = applyFrame (processFrames m l) f := by
  unfold processFrames
  rw [List.foldl_append]
  rfl

theorem applyFrame_done (m : ChatMessage) (d : Str) :
    applyFrame m { type := "done", data := d } =
      { m with isStreaming := false, isThinking := false } := by
  unfold applyFrame
  simp

theorem typingSnap_displayedAnswer (m : ChatMessage) (hm : m.isStreaming = false)
    (hd : m.displayedAnswer = [] ∨ m.displayedAnswer = m.answer) :
    (typingSnap m).displayedAnswer = m.answer := by
  unfold typingSnap
  split_ifs with hc
  · rfl
  · push_neg at hc
    rcases hd with hd | hd
    · by_cases ha : m.answer = []
      · rw [hd, ha]
      · have h2 := hc hm ha
        rw [hd] at h2
        exact absurd h2.symm ha
    · exact hd

/-- Claim C1: for every frame sequence that contains at least one text frame
(d being the payload of the last one) and ends with a done frame, after the
ingestion loop finishes the bot message displays exactly d (each text frame
replaced the accumulated answer), streaming and thinking are off, and the
end-of-stream snap leaves displayedAnswer equal to the full answer d. -/
theorem stream_final_text_eq_last_text_frame (id : String) (l : List Frame)
    (doneData : Str) (d : Str) (h : lastTextData l = some d) :
    displayText (processFrames (initialBotMessage id) (l ++ [{ type := "done", data := doneData }])) = d ∧
    (processFrames (initialBotMessage id) (l ++ [{ type := "done", data := doneData }])).answer = d ∧
    (processFrames (initialBotMessage id) (l ++ [{ type := "done", data := doneData }])).isStreaming = false ∧
    (processFrames (initialBotMessage id) (l ++ [{ type := "done", data := doneData }])).isThinking = false ∧
    (typingSnap (processFrames (initialBotMessage id) (l ++ [{ type := "done", data := doneData }]))).displayedAnswer = d := by
  have hsplit := processFrames_append_single (initialBotMessage id) l
    { type := "done", data := doneData }
  have hX : (processFrames (initialBotMessage id) l).answer = d := by
    rw [processFrames_answer, h]
    rfl
  have hrole : (processFrames (initialBotMessage id) l).role = "bot" :=
    processFrames_role l (initialBotMessage id)
  have hdisp : (processFrames (initialBotMessage id) l).displayedAnswer = [] :=
    processFrames_displayedAnswer l (initialBotMessage id)
  rw [hsplit, applyFrame_done]
  refine ⟨?_, hX, rfl, rfl, ?_⟩
  · unfold displayText
    simp only [hrole, hX]
    simp
  · exact (typingSnap_displayedAnswer
      { processFrames (initialBotMessage id) l with
        isStreaming := false, isThinking := false } rfl (Or.inl hdisp)).trans hX

/-- Witness for C1: a concrete stream of one text frame followed by done. -/
theorem stream_final_text_eq_last_text_frame_w :
    displayText (processFrames (initialBotMessage "b1") ([{ type := "text", data := ("hi").data }] ++ [{ type := "done", data := [] }])) = ("hi").data ∧
    (processFrames (initialBotMessage "b1") ([{ type := "text", data := ("hi").data }] ++ [{ type := "done", data := [] }])).answer = ("hi").data ∧
    (processFrames (initialBotMessage "b1") ([{ type := "text", data := ("hi").data }] ++ [{ type := "done", data := [] }])).isStreaming = false ∧
    (processFrames (initialBotMessage "b1") ([{ type := "text", data := ("hi").data }] ++ [{ type := "done", data := [] }])).isThinking = false ∧
    (typingSnap (processFrames (initialBotMessage "b1") ([{ type := "text", data := ("hi").data }] ++ [{ type := "done", data := [] }]))).displayedAnswer = ("hi").data :=
  stream_final_text_eq_last_text_frame "b1" [{ type := "text", data := ("hi").data }]
    [] (("hi").data) (by decide)

/-- Claim C6: in the ingestion loop, a line not starting with the data marker is
never parsed; a data line whose payload fails to parse, and a parsed frame whose
type is none of text, table, chart, evidence, done, leave the message unchanged
(skipped silently). -/
theorem malformed_frames_skipped (parseFrame : Str → Option Frame)
    (m : ChatMessage) (line : Str) :
    (dataMarker.isPrefixOf line = false → processLine parseFrame m line = m) ∧
    (parseFrame (line.drop 6) = none → processLine parseFrame m line = m) ∧
    (∀ f, parseFrame (line.drop 6) = some f → f.type ≠ "text" → f.type ≠ "table" →
      f.type ≠ "chart" → f.type ≠ "evidence" → f.type ≠ "done" →
      processLine parseFrame m line = m) := by
  refine ⟨?_, ?_, ?_⟩
  · intro h
    simp [processLine, h]
  · intro h
    unfold processLine
    cases hb : dataMarker.isPrefixOf line with
    | false => simp
    | true => simp [h]
  · intro f hf h1 h2 h3 h4 h5
    unfold processLine
    cases hb : dataMarker.isPrefixOf line with
    | false => simp
    | true =>
      simp only [hb, if_pos, hf]
      unfold applyFrame
      rw [if_neg h1, if_neg h2, if_neg h3, if_neg h4, if_neg h5]

/-- Witness for C6: a non data-marked line is ignored. -/
theorem malformed_frames_skipped_w :
    processLine (fun _ => none) (initialBotMessage "b2") ("hello").data =
      initialBotMessage "b2" :=
  (malformed_frames_skipped (fun _ => none) (initialBotMessage "b2")
    ("hello").data).1 (by decide)

/-- The fixed user-facing error text of App.jsx lines 179-185. -/
def connectionErrorText : Str :=
  ("Sorry, a connection error occurred. Please try again.").data

/-- The catch handler of sendMessage (App.jsx lines 177-185): the bot message is
rewritten to the fixed error text with streaming and thinking off and the error
flag on. -/
def applyStreamError (m : ChatMessage) : ChatMessage :=
  { m with answer := connectionErrorText, displayedAnswer := connectionErrorText,
           isStreaming := false, isThinking := false, isError := true }

/-- The try/catch of sendMessage around the fetch and the read loop: fetchOk is
false when the request throws or the response is not ok (App.jsx lines 126-128),
frames are the frames processed before the failure (none when the fetch itself
fails); on failure the catch handler rewrites whatever state the message is in. -/
def runSendMessageStream (fetchOk : Bool) (frames : List Frame) (m : ChatMessage) :
    ChatMessage :=
  if fetchOk then processFrames m frames
  else applyStreamError (processFrames m frames)

/-- Claim C7: when the fetch of the chat endpoint or the stream read fails, the
placeholder bot message ends with answer and displayedAnswer equal to the fixed
connection-error string, streaming and thinking off, and the error flag set. -/
theorem fetch_error_rewrites_placeholder (frames : List Frame) (m : ChatMessage) :
    (runSendMessageStream false frames m).answer = connectionErrorText ∧
    (runSendMessageStream false frames m).displayedAnswer = connectionErrorText ∧
    (runSendMessageStream false frames m).isStreaming = false ∧
    (runSendMessageStream false frames m).isThinking = false ∧
    (runSendMessageStream false frames m).isError = true := by
  refine ⟨rfl, rfl, rfl, rfl, rfl⟩

/-- App.jsx line 49: the typing interval fires every 15 milliseconds. -/
def TYPING_TICK_MS : Nat := 15

/-- The state of the typing animation set up by the effect of App.jsx lines
32-49: the captured target answer, the displayedAnswer being animated, the
closure variable currentIndex, and whether the interval is still set. -/
structure TypingTimer where
  answer : Str
  displayedAnswer : Str
  currentIndex : Nat
  timerActive : Bool
deriving DecidableEq, Repr

/-- App.jsx lines 39-41: the effect initialises currentIndex to the length of
the current displayedAnswer (0 for the empty string) and sets the interval. -/
def startTyping (answer displayedAnswer : Str) : TypingTimer :=
  { answer := answer, displayedAnswer := displayedAnswer,
    currentIndex := displayedAnswer.length, timerActive := true }

/-- One interval tick (App.jsx lines 41-48): while currentIndex is below the
answer length, displayedAnswer becomes answer.slice(0, currentIndex + 1) and
currentIndex advances; otherwise the tick clears the interval. -/
def typingTick (s : TypingTimer) : TypingTimer :=
  if s.currentIndex < s.answer.length then
    { s with displayedAnswer := s.answer.take (s.currentIndex + 1),
             currentIndex := s.currentIndex + 1 }
  else
    { s with timerActive := false }

/-- n successive interval ticks. -/
def typingTickN : Nat → TypingTimer → TypingTimer
  | 0, s => s
  | n + 1, s => typingTickN n (typingTick s)

theorem typingTick_answer (s : TypingTimer) : (typingTick s).answer = s.answer := by
  unfold typingTick
  split_ifs <;> rfl

theorem typingTickN_answer : ∀ (n : Nat) (s : TypingTimer),
    (typingTickN n s).answer = s.answer := by
  intro n
  induction n with
  | zero => intro s; rfl
  | succ n ih =>
    intro s
    have h : typingTickN (n + 1) s = typingTickN n (typingTick s) := rfl
    rw [h, ih, typingTick_answer]

theorem typingTickN_succ_right : ∀ (n : Nat) (s : TypingTimer),
    typingTickN (n + 1) s = typingTick (typingTickN n s) := by
  intro n
  induction n with
  | zero => intro s; rfl
  | succ n ih =>
    intro s
    have h : typingTickN (n + 1 + 1) s = typingTickN (n + 1) (typingTick s) := rfl
    rw [h, ih]
    rfl

theorem typingTick_keeps_inside (s : TypingTimer)
    (h : ∃ t, s.displayedAnswer ++ t = s.answer) :
    ∃ t, (typingTick s).displayedAnswer ++ t = s.answer := by
  unfold typingTick
  split_ifs with hc
  · exact ⟨s.answer.drop (s.currentIndex + 1), List.take_append_drop _ _⟩
  · exact h

theorem typingTickN_keeps_inside : ∀ (n : Nat) (s : TypingTimer),
    (∃ t, s.displayedAnswer ++ t = s.answer) →
    ∃ t, (typingTickN n s).displayedAnswer ++ t = s.answer := by
  intro n
  induction n with
  | zero => intro s h; exact h
  | succ n ih =>
    intro s h
    have h1 := typingTick_keeps_inside s h
    rw [show s.answer = (typingTick s).answer from (typingTick_answer s).symm] at h1
    have h2 := ih (typingTick s) h1
    rw [typingTick_answer] at h2
    exact h2

theorem typingTickN_catchup : ∀ (k : Nat) (s : TypingTimer),
    s.displayedAnswer = s.answer.take s.currentIndex →
    s.answer.length = s.currentIndex + k →
    (typingTickN k s).displayedAnswer = s.answer ∧
    (typingTickN k s).currentIndex = s.answer.length ∧
    (typingTickN k s).answer = s.answer ∧
    (typingTickN k s).timerActive = s.timerActive := by
  intro k
  induction k with
  | zero =>
    intro s hinv hlen
    have hidx : s.currentIndex = s.answer.length := by omega
    refine ⟨?_, hidx, rfl, rfl⟩
    show s.displayedAnswer = s.answer
    rw [hinv, hidx, List.take_length]
  | succ k ih =>
    intro s hinv hlen
    have hlt : s.currentIndex < s.answer.length := by omega
    have h1 : typingTick s =
        { s with displayedAnswer := s.answer.take (s.currentIndex + 1),
                 currentIndex := s.currentIndex + 1 } := by
      unfold typingTick
      rw [if_pos hlt]
    have h2 := ih (typingTick s) (by rw [h1]) (by rw [h1]; show s.answer.length = s.currentIndex + 1 + k; omega)
    have h3 : typingTickN (k + 1) s = typingTickN k (typingTick s) := rfl
    have ht : (typingTick s).timerActive = s.timerActive := by rw [h1]
    rw [typingTick_answer] at h2
    rw [ht] at h2
    rw [h3]
    exact h2

/-- Claim C9: every updating tick sets displayedAnswer to
answer.slice(0, currentIndex + 1), itself a prefix of the answer; consequently,
starting from a displayedAnswer that is a prefix of the (tick-invariant)
answer, displayedAnswer remains a prefix of the answer after any number of
ticks, so the displayed text never shows characters outside the target text. -/
theorem displayed_stays_prefix_of_answer (s : TypingTimer) (n : Nat)
    (h : ∃ t, s.displayedAnswer ++ t = s.answer) :
    ((typingTick s).displayedAnswer =
       if s.currentIndex < s.answer.length then s.answer.take (s.currentIndex + 1)
       else s.displayedAnswer) ∧
    (typingTickN n s).answer = s.answer ∧
    (∃ t, (typingTickN n s).displayedAnswer ++ t = s.answer) := by
  refine ⟨?_, typingTickN_answer n s, typingTickN_keeps_inside n s h⟩
  unfold typingTick
  split_ifs <;> rfl

/-- Witness for C9 at a concrete two-character answer. -/
theorem displayed_stays_prefix_of_answer_w :
    ((typingTick (startTyping ("ab").data ("a").data)).displayedAnswer =
       if (startTyping ("ab").data ("a").data).currentIndex <
           (startTyping ("ab").data ("a").data).answer.length then
         (startTyping ("ab").data ("a").data).answer.take
           ((startTyping ("ab").data ("a").data).currentIndex + 1)
       else (startTyping ("ab").data ("a").data).displayedAnswer) ∧
    (typingTickN 3 (startTyping ("ab").data ("a").data)).answer =
      (startTyping ("ab").data ("a").data).answer ∧
    (∃ t, (typingTickN 3 (startTyping ("ab").data ("a").data)).displayedAnswer ++ t =
      (startTyping ("ab").data ("a").data).answer) :=
  displayed_stays_prefix_of_answer (startTyping ("ab").data ("a").data) 3
    ⟨("b").data, by decide⟩

/-- A bot message whose answer is empty while its displayedAnswer is not:
streaming is off and displayedAnswer differs from answer, yet the truthiness
guard on answer in App.jsx line 59 prevents the snap. -/
def snapCexMessage : ChatMessage :=
  { id := "b3", role := "bot", answer := [], displayedAnswer := ("x").data,
    isStreaming := false }

/-- Counterexample for C5 as stated: isStreaming is false and displayedAnswer
differs from answer, but the effect does not set displayedAnswer to the full
answer, because the guard requires a truthy (non-empty) answer. -/
theorem typing_snap_empty_answer_cex :
    snapCexMessage.isStreaming = false ∧
    snapCexMessage.displayedAnswer ≠ snapCexMessage.answer ∧
    (typingSnap snapCexMessage).displayedAnswer ≠ snapCexMessage.answer := by
  decide

/-- Claim C5 (amended): on a timer state whose displayedAnswer is the
currentIndex-prefix of the answer, a tick below the answer length extends
displayedAnswer by exactly one character (to the slice ending at
currentIndex + 1) and leaves the interval set; a tick at or past the length
clears the interval and changes displayedAnswer no further; iterating, the
animation reaches the full answer and the immediately following tick clears
the interval; and when streaming is off while the answer is non-empty and
displayedAnswer still differs, a single update snaps displayedAnswer to the
full answer.  The tick cadence is the fixed 15 ms constant. -/
theorem typing_animator_behaviour (s : TypingTimer) (m : ChatMessage)
    (hinv : s.displayedAnswer = s.answer.take s.currentIndex)
    (hm : m.isStreaming = false) (ha : m.answer ≠ [])
    (hd : m.displayedAnswer ≠ m.answer) :
    (s.currentIndex < s.answer.length →
       (typingTick s).displayedAnswer.length = s.displayedAnswer.length + 1 ∧
       (typingTick s).displayedAnswer = s.answer.take (s.currentIndex + 1) ∧
       (typingTick s).timerActive = s.timerActive) ∧
    (s.answer.length ≤ s.currentIndex →
       (typingTick s).timerActive = false ∧
       (typingTick s).displayedAnswer = s.displayedAnswer) ∧
    (s.currentIndex ≤ s.answer.length →
       (typingTickN (s.answer.length - s.currentIndex) s).displayedAnswer = s.answer ∧
       (typingTickN (s.answer.length - s.currentIndex) s).timerActive = s.timerActive ∧
       (typingTickN (s.answer.length - s.currentIndex + 1) s).timerActive = false) ∧
    ((typingSnap m).displayedAnswer = m.answer ∧ TYPING_TICK_MS = 15) := by
  refine ⟨?_, ?_, ?_, ?_, rfl⟩
  · intro hlt
    have h1 : typingTick s =
        { s with displayedAnswer := s.answer.take (s.currentIndex + 1),
                 currentIndex := s.currentIndex + 1 } := by
      unfold typingTick
      rw [if_pos hlt]
    rw [h1]
    refine ⟨?_, rfl, rfl⟩
    show (s.answer.take (s.currentIndex + 1)).length = s.displayedAnswer.length + 1
    rw [hinv, List.length_take, List.length_take]
    omega
  · intro hge
    have h1 : typingTick s = { s with timerActive := false } := by
      unfold typingTick
      rw [if_neg (by omega)]
    rw [h1]
    exact ⟨rfl, rfl⟩
  · intro hle
    have hcu := typingTickN_catchup (s.answer.length - s.currentIndex) s hinv (by omega)
    refine ⟨hcu.1, hcu.2.2.2, ?_⟩
    rw [typingTickN_succ_right]
    have hdone : ¬ ((typingTickN (s.answer.length - s.currentIndex) s).currentIndex <
        (typingTickN (s.answer.length - s.currentIndex) s).answer.length) := by
      rw [hcu.2.1, hcu.2.2.1]
      omega
    unfold typingTick
    rw [if_neg hdone]
  · unfold typingSnap
    split_ifs with hc
    · rfl
    · exact absurd ⟨hm, ha, hd⟩ hc

/-- A concrete message for the C5 witness: streaming off, non-empty answer,
empty displayedAnswer. -/
def snapOkMessage : ChatMessage :=
  { id := "b4", role := "bot", answer := ("ok").data,
    displayedAnswer := [], isStreaming := false }

/-- Witness for C5 (amended) at a concrete state and message. -/
theorem typing_animator_behaviour_w :
    (typingSnap snapOkMessage).displayedAnswer = snapOkMessage.answer :=
  ((typing_animator_behaviour (startTyping ("ab").data []) snapOkMessage
    (by decide) rfl (by decide) (by decide)).2.2.2).1

/-- Conversation metadata (storageService.js createConversation lines 74-81).
Timestamps are integers standing for the ISO date strings, ordered by time. -/
structure Conversation where
  id : String
  title : Str
  createdAt : Int
  updatedAt : Int
  isPinned : Bool
  messageCount : Nat
deriving DecidableEq, Repr

/-- The localStorage contents relevant to the service: the conversations
metadata list, one messages list per conversation id, and the current
conversation id.  The JSON round trip of the typed values is modelled away
here; the raw string layer is modelled separately below for the safeJsonParse
claim. -/
structure StorageState where
  conversations : List Conversation
  messagesMap : List (String × List ChatMessage)
  currentId : Option String
deriving DecidableEq, Repr

def lookupEntry {β : Type _} (m : List (String × β)) (k : String) : Option β :=
  (m.find? (fun kv => kv.1 = k)).map (fun kv => kv.2)

def setEntry {β : Type _} : List (String × β) → String → β → List (String × β)
  | [], k, v => [(k, v)]
  | kv :: rest, k, v => if kv.1 = k then (k, v) :: rest else kv :: setEntry rest k v

def removeEntry {β : Type _} (m : List (String × β)) (k : String) :
    List (String × β) :=
  m.filter (fun kv => kv.1 ≠ k)

/-- Replace the first element satisfying p by its image under f (the findIndex
plus in-place assignment pattern of storageService.js). -/
def updateFirst {α : Type _} (p : α → Bool) (f : α → α) : List α → List α
  | [] => []
  | x :: xs => if p x then f x :: xs else x :: updateFirst p f xs

theorem mem_updateFirst {α : Type _} (p : α → Bool) (f : α → α) :
    ∀ (l : List α) (y : α), y ∈ updateFirst p f l →
      y ∈ l ∨ ∃ x, x ∈ l ∧ y = f x := by
  intro l
  induction l with
  | nil => intro y h; exact absurd h (List.not_mem_nil y)
  | cons x xs ih =>
    intro y h
    unfold updateFirst at h
    split_ifs at h with hp
    · rcases List.mem_cons.mp h with h1 | h1
      · exact Or.inr ⟨x, List.mem_cons_self x xs, h1⟩
      · exact Or.inl (List.mem_cons_of_mem x h1)
    · rcases List.mem_cons.mp h with h1 | h1
      · exact Or.inl (by rw [h1]; exact List.mem_cons_self x xs)
      · rcases ih y h1 with h2 | ⟨x2, hx2, he⟩
        · exact Or.inl (List.mem_cons_of_mem x h2)
        · exact Or.inr ⟨x2, List.mem_cons_of_mem x hx2, he⟩

theorem length_updateFirst {α : Type _} (p : α → Bool) (f : α → α) :
    ∀ (l : List α), (updateFirst p f l).length = l.length := by
  intro l
  induction l with
  | nil => rfl
  | cons x xs ih =>
    unfold updateFirst
    split_ifs <;> simp [ih]

/-- storageService.js lines 152-156: fill in id and timestamp when absent (the
JS or-defaults; an absent field is modelled by the empty string and 0). -/
def sFinalizeMessage (genId : String) (now : Int) (msg : ChatMessage) :
    ChatMessage :=
  { msg with id := if msg.id = "" then genId else msg.id,
             timestamp := if msg.timestamp = 0 then now else msg.timestamp }

/-- storageService.js createConversation (lines 71-94): truncate the title to
50 characters, prepend the new conversation, initialise its messages to [].
generateId() and the clock are the explicit parameters newId and now. -/
def sCreateConversation (newId : String) (now : Int) (title : Str)
    (st : StorageState) : Conversation × StorageState :=
  let c : Conversation :=
    { id := newId, title := title.take 50, createdAt := now, updatedAt := now,
      isPinned := false, messageCount := 0 }
  (c, { st with conversations := c :: st.conversations,
                messagesMap := setEntry st.messagesMap newId [] })

/-- storageService.js line 171: the auto-generated title is the first 50
characters of the first user message, plus an ellipsis when it was longer. -/
def autoTitle (content : Str) : Str :=
  content.take 50 ++ (if 50 < content.length then ("...").data else [])

/-- The conversation-metadata update addMessage performs on the matching
conversation (storageService.js lines 165-175): new message count, fresh
updatedAt, and the auto-title when the title is still New Chat and a user
message with content arrives. -/
def addMessageConvUpdate (msg : ChatMessage) (newCount : Nat) (now : Int)
    (c : Conversation) : Conversation :=
  { c with messageCount := newCount, updatedAt := now,
           title := if c.title = ("New Chat").data ∧ msg.role = "user" ∧
               msg.content ≠ [] then autoTitle msg.content else c.title }

/-- storageService.js addMessage (lines 148-178): append the finalised message
to the conversation's stored messages, then update the first matching
conversation metadata. -/
def sAddMessage (genId : String) (now : Int) (convId : String) (msg : ChatMessage)
    (st : StorageState) : ChatMessage × StorageState :=
  let msgs := (lookupEntry st.messagesMap convId).getD []
  let newMessage := sFinalizeMessage genId now msg
  let msgs2 := msgs ++ [newMessage]
  let conversations2 := updateFirst (fun c => c.id = convId)
    (addMessageConvUpdate msg msgs2.length now) st.conversations
  (newMessage, { st with messagesMap := setEntry st.messagesMap convId msgs2,
                         conversations := conversations2 })

theorem sAddMessage_conversations_eq (genId : String) (now : Int) (convId : String)
    (msg : ChatMessage) (st : StorageState) :
    (sAddMessage genId now convId msg st).2.conversations =
      updateFirst (fun c => c.id = convId)
        (addMessageConvUpdate msg
          (((lookupEntry st.messagesMap convId).getD []) ++
            [sFinalizeMessage genId now msg]).length now)
        st.conversations := rfl

theorem sAddMessage_messagesMap (genId : String) (now : Int) (convId : String)
    (msg : ChatMessage) (st : StorageState) :
    (sAddMessage genId now convId msg st).2.messagesMap =
      setEntry st.messagesMap convId
        (((lookupEntry st.messagesMap convId).getD []) ++
          [sFinalizeMessage genId now msg]) := rfl

theorem sAddMessage_currentId (genId : String) (now : Int) (convId : String)
    (msg : ChatMessage) (st : StorageState) :
    (sAddMessage genId now convId msg st).2.currentId = st.currentId := rfl

/-- The updates object passed to updateConversation: optional title and
isPinned fields; the JS object spread overwrites present fields only. -/
structure ConvUpdates where
  title : Option Str := none
  isPinned : Option Bool := none
deriving DecidableEq, Repr

/-- storageService.js lines 108-112: spread of the stored conversation, the
updates, and a fresh updatedAt.  No truncation is applied to the title. -/
def applyConvUpdates (c : Conversation) (u : ConvUpdates) (now : Int) :
    Conversation :=
  { c with title := u.title.getD c.title, isPinned := u.isPinned.getD c.isPinned,
           updatedAt := now }

/-- storageService.js updateConversation (lines 102-118). -/
def sUpdateConversation (now : Int) (id : String) (u : ConvUpdates)
    (st : StorageState) : Option Conversation × StorageState :=
  match st.conversations.find? (fun c => c.id = id) with
  | none => (none, st)
  | some c =>
    (some (applyConvUpdates c u now),
     { st with
         conversations := updateFirst (fun c2 => c2.id = id)
           (fun c2 => applyConvUpdates c2 u now) st.conversations })

/-- storageService.js deleteConversation (lines 125-140): filter the metadata
list, report false when nothing was removed, drop the messages entry and clear
the current id if it pointed at the deleted conversation. -/
def sDeleteConversation (id : String) (st : StorageState) : Bool × StorageState :=
  let filtered := st.conversations.filter (fun c => c.id ≠ id)
  if filtered.length = st.conversations.length then (false, st)
  else
    (true,
     { conversations := filtered,
       messagesMap := removeEntry st.messagesMap id,
       currentId := if st.currentId = some id then none else st.currentId })

/-- storageService.js getConversation (lines 51-64): find the metadata, read
the stored messages (typed layer: a missing key reads as the empty list; the
raw layer below records what JSON.parse actually yields there). -/
def sGetConversation (id : String) (st : StorageState) :
    Option (Conversation × List ChatMessage) :=
  match st.conversations.find? (fun c => c.id = id) with
  | none => none
  | some c => some (c, (lookupEntry st.messagesMap id).getD [])

theorem autoTitle_length_le (content : Str) : (autoTitle content).length ≤ 53 := by
  unfold autoTitle
  split_ifs with h
  · rw [List.length_append, List.length_take]
    have h3 : (("...").data).length = 3 := rfl
    rw [h3]
    omega
  · rw [List.append_nil, List.length_take]
    omega

/-- A 51-character first user message. -/
def longContent : Str := List.replicate 51 'a'

/-- A stored state with one conversation still titled New Chat. -/
def titleCexState : StorageState :=
  { conversations := [{ id := "c1", title := ("New Chat").data, createdAt := 0,
                        updatedAt := 0, isPinned := false, messageCount := 0 }],
    messagesMap := [("c1", [])], currentId := none }

/-- The first user message of that conversation, 51 characters long. -/
def titleCexMessage : ChatMessage :=
  { id := "m1", role := "user", content := longContent, timestamp := 1 }

/-- Counterexample for C2 as stated: adding a 51-character first user message
auto-titles the conversation with 53 characters (the 50-character cut plus the
three-dot ellipsis), exceeding the claimed 50-character bound. -/
theorem conv_title_over_50_cex :
    ((sAddMessage "g1" 5 "c1" titleCexMessage titleCexState).2.conversations.map
      (fun c => c.title.length)) = [53] ∧ ¬ (53 ≤ 50) := by
  decide

/-- Claim C2 (amended): createConversation truncates titles to at most 50
characters; the auto-title from the first user message is at most 53 characters
(the 50-character cut plus the three-dot ellipsis) and equals the content when
that already fits in 50; every conversation touched by addMessage either keeps
a title already present in the list or receives the bounded auto-title; and
updateConversation stores the caller-provided title unchanged, without any
truncation. -/
theorem conversation_title_bounds (newId genId : String) (now : Int) (title : Str)
    (convId : String) (msg : ChatMessage) (st : StorageState) (u : ConvUpdates)
    (c : Conversation) :
    (sCreateConversation newId now title st).1.title.length ≤ 50 ∧
    (autoTitle msg.content).length ≤ 53 ∧
    (msg.content.length ≤ 50 → autoTitle msg.content = msg.content) ∧
    (∀ c2, c2 ∈ (sAddMessage genId now convId msg st).2.conversations →
       (∃ c3, c3 ∈ st.conversations ∧ c2.title = c3.title) ∨
         c2.title.length ≤ 53) ∧
    (applyConvUpdates c u now).title = u.title.getD c.title := by
  refine ⟨?_, autoTitle_length_le msg.content, ?_, ?_, rfl⟩
  · show (title.take 50).length ≤ 50
    rw [List.length_take]
    omega
  · intro h
    unfold autoTitle
    rw [if_neg (by omega), List.append_nil, List.take_of_length_le h]
  · intro c2 h2
    rw [sAddMessage_conversations_eq] at h2
    have h3 := mem_updateFirst _ _ st.conversations c2 h2
    rcases h3 with h3 | ⟨x, hx, he⟩
    · exact Or.inl ⟨c2, h3, rfl⟩
    · by_cases hcond : x.title = ("New Chat").data ∧ msg.role = "user" ∧
          msg.content ≠ []
      · refine Or.inr ?_
        rw [he]
        show (if x.title = ("New Chat").data ∧ msg.role = "user" ∧
            msg.content ≠ [] then autoTitle msg.content else x.title).length ≤ 53
        rw [if_pos hcond]
        exact autoTitle_length_le msg.content
      · refine Or.inl ⟨x, hx, ?_⟩
        rw [he]
        show (if x.title = ("New Chat").data ∧ msg.role = "user" ∧
            msg.content ≠ [] then autoTitle msg.content else x.title) = x.title
        rw [if_neg hcond]

/-- A throwaway conversation for instantiating C2's amended theorem. -/
def plainConv : Conversation :=
  { id := "c0", title := [], createdAt := 0, updatedAt := 0, isPinned := false,
    messageCount := 0 }

/-- Witness for C2 (amended): a short content is its own auto-title. -/
theorem conversation_title_bounds_w :
    autoTitle ("hi").data = ("hi").data :=
  (conversation_title_bounds "n" "g" 0 [] "c"
    { id := "m", role := "user", content := ("hi").data } titleCexState {}
    plainConv).2.2.1 (by decide)

/-- The date boundaries computed at the top of groupConversationsByDate
(storageService.js lines 287-294): start of today, of yesterday, of 7 and of
30 days back, as timestamps. -/
structure DateThresholds where
  today : Int
  yesterday : Int
  lastWeek : Int
  lastMonth : Int
deriving DecidableEq, Repr

/-- The six sidebar buckets (storageService.js lines 296-303). -/
structure ConvGroups where
  pinned : List Conversation := []
  today : List Conversation := []
  yesterday : List Conversation := []
  lastWeek : List Conversation := []
  lastMonth : List Conversation := []
  older : List Conversation := []
deriving DecidableEq, Repr

/-- The forEach body (storageService.js lines 305-324): pinned conversations go
to the pinned bucket; otherwise the first date bound the conversation's
updatedAt reaches picks the bucket. -/
def pushConvToGroup (th : DateThresholds) (g : ConvGroups) (c : Conversation) :
    ConvGroups :=
  if c.isPinned then { g with pinned := g.pinned ++ [c] }
  else if th.today ≤ c.updatedAt then { g with today := g.today ++ [c] }
  else if th.yesterday ≤ c.updatedAt then { g with yesterday := g.yesterday ++ [c] }
  else if th.lastWeek ≤ c.updatedAt then { g with lastWeek := g.lastWeek ++ [c] }
  else if th.lastMonth ≤ c.updatedAt then { g with lastMonth := g.lastMonth ++ [c] }
  else { g with older := g.older ++ [c] }

/-- storageService.js groupConversationsByDate (lines 274-327) on a present
(non-null) input list. -/
def groupConversationsByDate (th : DateThresholds) (l : List Conversation) :
    ConvGroups :=
  l.foldl (pushConvToGroup th) {}

/-- All bucket contents, in bucket order. -/
def allGroupItems (g : ConvGroups) : List Conversation :=
  g.pinned ++ g.today ++ g.yesterday ++ g.lastWeek ++ g.lastMonth ++ g.older

theorem allGroupItems_push_perm (th : DateThresholds) (g : ConvGroups)
    (c : Conversation) :
    (allGroupItems (pushConvToGroup th g c)).Perm (c :: allGroupItems g) := by
  rw [List.perm_iff_count]
  intro a
  unfold pushConvToGroup
  split_ifs <;>
    simp [allGroupItems, List.count_append, List.count_cons, List.count_nil] <;>
    omega

theorem allGroupItems_foldl_perm (th : DateThresholds) :
    ∀ (l : List Conversation) (g : ConvGroups),
      (allGroupItems (l.foldl (pushConvToGroup th) g)).Perm (allGroupItems g ++ l) := by
  intro l
  induction l with
  | nil => intro g; simp
  | cons c l ih =>
    intro g
    have h1 : (c :: l).foldl (pushConvToGroup th) g =
        l.foldl (pushConvToGroup th) (pushConvToGroup th g c) := rfl
    rw [h1]
    have h2 := ih (pushConvToGroup th g c)
    have h3 := (allGroupItems_push_perm th g c).append_right l
    have h5 : (allGroupItems g ++ (c :: l)).Perm (c :: (allGroupItems g ++ l)) :=
      List.perm_middle
    exact (h2.trans h3).trans h5.symm

/-- MessageBubble.jsx line 6. -/
def ROWS_PER_PAGE : Nat := 10

/-- MessageBubble.jsx line 15: Math.ceil(totalRows / ROWS_PER_PAGE). -/
def totalPages (totalRows : Nat) : Nat :=
  (totalRows + ROWS_PER_PAGE - 1) / ROWS_PER_PAGE

/-- JS Array.prototype.slice(s, e) for indices 0 ≤ s ≤ e: the elements from
position s up to but excluding position e. -/
def jsSlice {α : Type _} (l : List α) (s e : Nat) : List α :=
  (l.drop s).take (e - s)

/-- MessageBubble.jsx lines 18-20: startIdx = (page-1)*ROWS_PER_PAGE, endIdx =
startIdx + ROWS_PER_PAGE, currentRows = rows.slice(startIdx, endIdx); pages
count from 1. -/
def pageRows {α : Type _} (rows : List α) (page : Nat) : List α :=
  jsSlice rows ((page - 1) * ROWS_PER_PAGE) ((page - 1) * ROWS_PER_PAGE + ROWS_PER_PAGE)

/-- The concatenation of all pages 1 .. totalPages of a table. -/
def allPagesRows {α : Type _} (rows : List α) : List α :=
  ((List.range (totalPages rows.length)).map (fun i => pageRows rows (i + 1))).flatten

theorem pages_concat_take {α : Type _} (rows : List α) :
    ∀ (k : Nat), ((List.range k).map (fun i => pageRows rows (i + 1))).flatten =
      rows.take (k * ROWS_PER_PAGE) := by
  intro k
  induction k with
  | zero => rfl
  | succ k ih =>
    rw [List.range_succ, List.map_append, List.flatten_append, ih]
    have h1 : pageRows rows (k + 1) =
        (rows.drop (k * ROWS_PER_PAGE)).take ROWS_PER_PAGE := by
      unfold pageRows jsSlice
      rw [Nat.add_sub_cancel, Nat.add_sub_cancel_left]
    have h2 : (List.map (fun i => pageRows rows (i + 1)) [k]).flatten =
        (rows.drop (k * ROWS_PER_PAGE)).take ROWS_PER_PAGE := by
      simp [h1]
    have h3 : (k + 1) * ROWS_PER_PAGE = k * ROWS_PER_PAGE + ROWS_PER_PAGE := by
      ring
    rw [h2, h3, ← List.take_add]

theorem allPagesRows_eq {α : Type _} (rows : List α) : allPagesRows rows = rows := by
  unfold allPagesRows
  rw [pages_concat_take]
  apply List.take_of_length_le
  show rows.length ≤ totalPages rows.length * ROWS_PER_PAGE
  unfold totalPages ROWS_PER_PAGE
  omega

/-- Claim C3: grouping places every conversation in exactly one of the six
buckets, so the concatenation of the buckets is a permutation of the input
(nothing dropped, nothing duplicated); and pagination shows page p as the rows
from (p-1)*10 up to but excluding p*10, the pages 1..ceil(rows/10) together
reassembling the row list exactly. -/
theorem grouping_and_pagination_partition {α : Type _} (th : DateThresholds)
    (l : List Conversation) (rows : List α) (p : Nat) (hp : 1 ≤ p) :
    (allGroupItems (groupConversationsByDate th l)).Perm l ∧
    pageRows rows p = jsSlice rows ((p - 1) * 10) (p * 10) ∧
    allPagesRows rows = rows := by
  refine ⟨?_, ?_, allPagesRows_eq rows⟩
  · have h := allGroupItems_foldl_perm th l {}
    have h0 : allGroupItems ({} : ConvGroups) = [] := rfl
    rw [h0] at h
    exact h
  · show jsSlice rows ((p - 1) * ROWS_PER_PAGE) ((p - 1) * ROWS_PER_PAGE + ROWS_PER_PAGE) =
      jsSlice rows ((p - 1) * 10) (p * 10)
    have he : (p - 1) * ROWS_PER_PAGE + ROWS_PER_PAGE = p * 10 := by
      show (p - 1) * 10 + 10 = p * 10
      omega
    rw [he]
    rfl

/-- Concrete conversations for the C3 witness. -/
def groupWitnessConvs : List Conversation :=
  [{ id := "p1", title := [], createdAt := 0, updatedAt := 0, isPinned := true,
     messageCount := 0 },
   { id := "t1", title := [], createdAt := 0, updatedAt := 9, isPinned := false,
     messageCount := 0 },
   { id := "o1", title := [], createdAt := 0, updatedAt := -50, isPinned := false,
     messageCount := 0 }]

/-- Concrete thresholds for the C3 witness. -/
def groupWitnessThresholds : DateThresholds :=
  { today := 4, yesterday := 3, lastWeek := 2, lastMonth := 1 }

/-- Witness for C3 at a concrete conversation list, table and page index. -/
theorem grouping_and_pagination_partition_w :
    (allGroupItems (groupConversationsByDate groupWitnessThresholds
      groupWitnessConvs)).Perm groupWitnessConvs ∧
    pageRows [0, 1, 2] 1 = jsSlice [0, 1, 2] ((1 - 1) * 10) (1 * 10) ∧
    allPagesRows [0, 1, 2] = [0, 1, 2] :=
  grouping_and_pagination_partition groupWitnessThresholds groupWitnessConvs
    [0, 1, 2] 1 (by decide)

/-- The React state of the (synchronous) ConversationContext together with the
storage it talks to: in-memory conversations list, current conversation id and
messages of the current conversation. -/
structure AppState where
  storage : StorageState
  conversations : List Conversation
  currentConversationId : Option String
  messages : List ChatMessage
deriving DecidableEq, Repr

/-- The welcome text shown in every new conversation
(ConversationContext.jsx lines 41-42). -/
def welcomeText : Str :=
  ("Hello! I'm your intelligent financial assistant. I can help you query financial data and loans information. How can I help you today?").data

/-- The welcome message object (ConversationContext.jsx lines 38-49). -/
def welcomeMessage (now : Int) : ChatMessage :=
  { id := "welcome", role := "bot", answer := welcomeText,
    displayedAnswer := welcomeText, chart := none, table := none,
    evidence := none, isStreaming := false, isThinking := false,
    timestamp := now }

/-- ConversationContext.jsx createConversation (lines 31-55): create in
storage, prepend to the in-memory list, make it current in React state and in
storage, store the welcome message, and show it as the message list. -/
def ctxCreateConversation (newId : String) (now : Int) (title : Str)
    (s : AppState) : Conversation × AppState :=
  let created := sCreateConversation newId now title s.storage
  let st1 : StorageState := { created.2 with currentId := some created.1.id }
  let st2 := (sAddMessage "" now created.1.id (welcomeMessage now) st1).2
  (created.1,
   { storage := st2, conversations := created.1 :: s.conversations,
     currentConversationId := some created.1.id,
     messages := [welcomeMessage now] })

/-- ConversationContext.jsx switchConversation (lines 58-67): no-op when the
id is already current; otherwise load the conversation from storage and, when
found, make it current and show its messages. -/
def ctxSwitchConversation (id : String) (s : AppState) : AppState :=
  if some id = s.currentConversationId then s
  else
    match sGetConversation id s.storage with
    | some conv =>
      { s with currentConversationId := some id,
               storage := { s.storage with currentId := some id },
               messages := conv.2 }
    | none => s

/-- ConversationContext.jsx deleteConversation (lines 70-84): delete from
storage, filter the in-memory list; when the deleted conversation was current,
switch to the first remaining conversation, or clear the current id and the
message list when none remain. -/
def ctxDeleteConversation (id : String) (s : AppState) : AppState :=
  let st1 := (sDeleteConversation id s.storage).2
  let s1 : AppState :=
    { s with storage := st1,
             conversations := s.conversations.filter (fun c => c.id ≠ id) }
  if s.currentConversationId = some id then
    match s.conversations.filter (fun c => c.id ≠ id) with
    | [] => { s1 with currentConversationId := none, messages := [] }
    | r :: _ => ctxSwitchConversation r.id s1
  else s1

/-- ConversationContext.jsx addMessage (lines 96-116): when no conversation is
current, auto-create one (with its welcome message) and add the message to it;
otherwise add to the current conversation.  When a user message with content
arrives, the in-memory conversations list is refreshed from storage. -/
def ctxAddMessage (newConvId genId : String) (now : Int) (msg : ChatMessage)
    (s : AppState) : AppState :=
  match s.currentConversationId with
  | none =>
    let created := ctxCreateConversation newConvId now ("New Chat").data s
    let s1 := created.2
    let st2 := (sAddMessage genId now created.1.id msg s1.storage).2
    let s2 : AppState :=
      { s1 with storage := st2, messages := s1.messages ++ [msg] }
    if msg.role = "user" ∧ msg.content ≠ [] then
      { s2 with conversations := st2.conversations }
    else s2
  | some convId =>
    let st2 := (sAddMessage genId now convId msg s.storage).2
    let s2 : AppState :=
      { s with storage := st2, messages := s.messages ++ [msg] }
    if msg.role = "user" ∧ msg.content ≠ [] then
      { s2 with conversations := st2.conversations }
    else s2

theorem lookupEntry_setEntry_self {β : Type _} :
    ∀ (m : List (String × β)) (k : String) (v : β),
      lookupEntry (setEntry m k v) k = some v := by
  intro m
  induction m with
  | nil =>
    intro k v
    simp [setEntry, lookupEntry]
  | cons kv rest ih =>
    intro k v
    unfold setEntry
    split_ifs with h
    · simp [lookupEntry]
    · unfold lookupEntry
      rw [List.find?_cons_of_neg _ (by simpa using h)]
      exact ih k v

theorem sAddMessage_conversations_length (genId : String) (now : Int)
    (convId : String) (msg : ChatMessage) (st : StorageState) :
    (sAddMessage genId now convId msg st).2.conversations.length =
      st.conversations.length := by
  rw [sAddMessage_conversations_eq, length_updateFirst]

theorem sFinalizeMessage_welcome (now : Int) :
    sFinalizeMessage "" now (welcomeMessage now) = welcomeMessage now := by
  unfold sFinalizeMessage welcomeMessage
  simp

theorem ctxCreateConversation_spec (newId : String) (now : Int) (title : Str)
    (s : AppState) :
    (ctxCreateConversation newId now title s).1.id = newId ∧
    (ctxCreateConversation newId now title s).2.storage.conversations.length =
      s.storage.conversations.length + 1 ∧
    (ctxCreateConversation newId now title s).2.currentConversationId =
      some newId ∧
    (ctxCreateConversation newId now title s).2.storage.currentId = some newId ∧
    lookupEntry (ctxCreateConversation newId now title s).2.storage.messagesMap
      newId = some [welcomeMessage now] ∧
    (ctxCreateConversation newId now title s).2.messages = [welcomeMessage now] ∧
    (ctxCreateConversation newId now title s).2.conversations.length =
      s.conversations.length + 1 := by
  refine ⟨rfl, ?_, rfl, rfl, ?_, rfl, rfl⟩
  · show ((sAddMessage "" now newId (welcomeMessage now)
        { (sCreateConversation newId now title s.storage).2 with
          currentId := some newId }).2.conversations).length =
      s.storage.conversations.length + 1
    rw [sAddMessage_conversations_length]
    rfl
  · show lookupEntry
        ((sAddMessage "" now newId (welcomeMessage now)
          { (sCreateConversation newId now title s.storage).2 with
            currentId := some newId }).2.messagesMap) newId =
      some [welcomeMessage now]
    rw [sAddMessage_messagesMap]
    have h1 : lookupEntry
        ({ (sCreateConversation newId now title s.storage).2 with
           currentId := some newId } : StorageState).messagesMap newId =
        some ([] : List ChatMessage) := by
      show lookupEntry (setEntry s.storage.messagesMap newId []) newId = some []
      exact lookupEntry_setEntry_self s.storage.messagesMap newId []
    rw [h1, lookupEntry_setEntry_self, sFinalizeMessage_welcome]
    rfl

/-- Claim C8: adding a message while no conversation is current first creates a
new conversation (the stored conversation count grows by one), makes it the
current conversation in React state and in storage, and adds the message to
that new conversation (its stored messages are the welcome message followed by
the finalised message, and the shown message list ends with the message); with
a conversation already current, no conversation is created and the current
conversation is unchanged. -/
theorem auto_create_conversation_on_first_message (newConvId genId : String)
    (now : Int) (msg : ChatMessage) (s : AppState) :
    (s.currentConversationId = none →
       (ctxAddMessage newConvId genId now msg s).storage.conversations.length =
         s.storage.conversations.length + 1 ∧
       (ctxAddMessage newConvId genId now msg s).currentConversationId =
         some newConvId ∧
       (ctxAddMessage newConvId genId now msg s).storage.currentId =
         some newConvId ∧
       lookupEntry (ctxAddMessage newConvId genId now msg s).storage.messagesMap
         newConvId =
         some [welcomeMessage now, sFinalizeMessage genId now msg] ∧
       (ctxAddMessage newConvId genId now msg s).messages =
         [welcomeMessage now] ++ [msg]) ∧
    (∀ cid, s.currentConversationId = some cid →
       (ctxAddMessage newConvId genId now msg s).storage.conversations.length =
         s.storage.conversations.length ∧
       (ctxAddMessage newConvId genId now msg s).currentConversationId =
         some cid ∧
       (ctxAddMessage newConvId genId now msg s).storage.currentId =
         s.storage.currentId) := by
  constructor
  · intro h0
    have hsplit : (ctxAddMessage newConvId genId now msg s).storage =
        (sAddMessage genId now newConvId msg
          (ctxCreateConversation newConvId now ("New Chat").data s).2.storage).2 ∧
        (ctxAddMessage newConvId genId now msg s).currentConversationId =
          (ctxCreateConversation newConvId now ("New Chat").data s).2.currentConversationId ∧
        (ctxAddMessage newConvId genId now msg s).messages =
          (ctxCreateConversation newConvId now ("New Chat").data s).2.messages ++ [msg] := by
      simp only [ctxAddMessage, h0]
      split_ifs <;> exact ⟨rfl, rfl, rfl⟩
    have hspec := ctxCreateConversation_spec newConvId now ("New Chat").data s
    refine ⟨?_, ?_, ?_, ?_, ?_⟩
    · rw [hsplit.1, sAddMessage_conversations_length]
      exact hspec.2.1
    · rw [hsplit.2.1]
      exact hspec.2.2.1
    · rw [hsplit.1, sAddMessage_currentId]
      exact hspec.2.2.2.1
    · rw [hsplit.1, sAddMessage_messagesMap, hspec.2.2.2.2.1,
        lookupEntry_setEntry_self]
      rfl
    · rw [hsplit.2.2, hspec.2.2.2.2.2.1]
  · intro cid hcid
    have hsplit : (ctxAddMessage newConvId genId now msg s).storage =
        (sAddMessage genId now cid msg s.storage).2 ∧
        (ctxAddMessage newConvId genId now msg s).currentConversationId =
          s.currentConversationId := by
      simp only [ctxAddMessage, hcid]
      split_ifs <;> exact ⟨rfl, rfl⟩
    refine ⟨?_, ?_, ?_⟩
    · rw [hsplit.1, sAddMessage_conversations_length]
    · rw [hsplit.2]
      exact hcid
    · rw [hsplit.1, sAddMessage_currentId]

/-- An initial application state with nothing stored and nothing current. -/
def emptyAppState : AppState :=
  { storage := { conversations := [], messagesMap := [], currentId := none },
    conversations := [], currentConversationId := none, messages := [] }

/-- Witness for C8: the first message sent from the empty state lands in a
freshly created, now current, conversation. -/
theorem auto_create_conversation_on_first_message_w :
    (ctxAddMessage "n1" "g1" 7
      { id := "m1", role := "user", content := ("q").data, timestamp := 1 }
      emptyAppState).currentConversationId = some "n1" :=
  ((auto_create_conversation_on_first_message "n1" "g1" 7
    { id := "m1", role := "user", content := ("q").data, timestamp := 1 }
    emptyAppState).1 rfl).2.1

theorem sDeleteConversation_eq_of_no_removal (id : String) (st : StorageState)
    (h : (st.conversations.filter (fun c => c.id ≠ id)).length =
      st.conversations.length) :
    sDeleteConversation id st = (false, st) := by
  unfold sDeleteConversation
  rw [if_pos h]

theorem sDeleteConversation_eq_of_removal (id : String) (st : StorageState)
    (h : ¬ (st.conversations.filter (fun c => c.id ≠ id)).length =
      st.conversations.length) :
    sDeleteConversation id st =
      (true,
       { conversations := st.conversations.filter (fun c => c.id ≠ id),
         messagesMap := removeEntry st.messagesMap id,
         currentId := if st.currentId = some id then none else st.currentId }) := by
  unfold sDeleteConversation
  rw [if_neg h]

theorem mem_sDeleteConversation_conversations (id : String) (st : StorageState)
    (r : Conversation)
    (hr : r ∈ st.conversations.filter (fun c => c.id ≠ id)) :
    r ∈ (sDeleteConversation id st).2.conversations := by
  by_cases h : (st.conversations.filter (fun c => c.id ≠ id)).length =
      st.conversations.length
  · rw [sDeleteConversation_eq_of_no_removal id st h]
    exact (List.mem_filter.mp hr).1
  · rw [sDeleteConversation_eq_of_removal id st h]
    exact hr

/-- Claim C4: deleting the conversation that is current switches to the first
remaining conversation when any remain, and clears the current id and empties
the message list when none do; deleting a non-current conversation leaves the
current id and the messages unchanged.  The in-memory conversation list is
assumed to match storage, as the context maintains. -/
theorem delete_conversation_switches_or_clears (id : String) (s : AppState)
    (hsync : s.conversations = s.storage.conversations) :
    (s.currentConversationId = some id →
       (s.conversations.filter (fun c => c.id ≠ id) = [] →
          (ctxDeleteConversation id s).currentConversationId = none ∧
          (ctxDeleteConversation id s).messages = []) ∧
       (∀ r rest, s.conversations.filter (fun c => c.id ≠ id) = r :: rest →
          (ctxDeleteConversation id s).currentConversationId = some r.id)) ∧
    (s.currentConversationId ≠ some id →
       (ctxDeleteConversation id s).currentConversationId =
         s.currentConversationId ∧
       (ctxDeleteConversation id s).messages = s.messages) := by
  constructor
  · intro hcur
    constructor
    · intro hnil
      have hred : ctxDeleteConversation id s =
          { storage := (sDeleteConversation id s.storage).2,
            conversations := s.conversations.filter (fun c => c.id ≠ id),
            currentConversationId := none, messages := [] } := by
        simp only [ctxDeleteConversation]
        rw [if_pos hcur, hnil]
      rw [hred]
      exact ⟨rfl, rfl⟩
    · intro r rest hfil
      have hmem : r ∈ s.conversations.filter (fun c => c.id ≠ id) := by
        rw [hfil]
        exact List.mem_cons_self r rest
      have hrid : r.id ≠ id := by
        have h2 := (List.mem_filter.mp hmem).2
        simpa using h2
      have hmem2 : r ∈ (sDeleteConversation id s.storage).2.conversations := by
        apply mem_sDeleteConversation_conversations
        rw [← hsync]
        exact hmem
      have hfind : ∃ conv, List.find? (fun c => c.id = r.id)
          ((sDeleteConversation id s.storage).2.conversations) = some conv := by
        have h3 : (List.find? (fun c => c.id = r.id)
            ((sDeleteConversation id s.storage).2.conversations)).isSome = true := by
          rw [List.find?_isSome]
          exact ⟨r, hmem2, by simp⟩
        exact Option.isSome_iff_exists.mp h3
      obtain ⟨conv, hconv⟩ := hfind
      have hred : ctxDeleteConversation id s =
          ctxSwitchConversation r.id
            { s with storage := (sDeleteConversation id s.storage).2,
                     conversations := s.conversations.filter (fun c => c.id ≠ id) } := by
        simp only [ctxDeleteConversation]
        rw [if_pos hcur, hfil]
      rw [hred]
      have hguard : ¬ (some r.id =
          ({ s with storage := (sDeleteConversation id s.storage).2,
                    conversations := s.conversations.filter (fun c => c.id ≠ id) }
            : AppState).currentConversationId) := by
        show ¬ (some r.id = s.currentConversationId)
        rw [hcur]
        intro he
        exact hrid (Option.some.inj he)
      unfold ctxSwitchConversation
      rw [if_neg hguard]
      have hget : sGetConversation r.id
          ({ s with storage := (sDeleteConversation id s.storage).2,
                    conversations := s.conversations.filter (fun c => c.id ≠ id) }
            : AppState).storage =
          some (conv,
            (lookupEntry ((sDeleteConversation id s.storage).2).messagesMap
              r.id).getD []) := by
        show sGetConversation r.id (sDeleteConversation id s.storage).2 = _
        unfold sGetConversation
        rw [hconv]
      rw [hget]
  · intro hne
    have hred : ctxDeleteConversation id s =
        { s with storage := (sDeleteConversation id s.storage).2,
                 conversations := s.conversations.filter (fun c => c.id ≠ id) } := by
      simp only [ctxDeleteConversation]
      rw [if_neg hne]
    rw [hred]
    exact ⟨rfl, rfl⟩

/-- Two concrete conversations for the C4 witness. -/
def convA : Conversation :=
  { id := "c1", title := [], createdAt := 0, updatedAt := 0, isPinned := false,
    messageCount := 0 }

/-- The second concrete conversation for the C4 witness. -/
def convB : Conversation :=
  { id := "c2", title := [], createdAt := 0, updatedAt := 0, isPinned := false,
    messageCount := 0 }

/-- A state holding the two conversations with the first one current. -/
def twoConvState : AppState :=
  { storage := { conversations := [convA, convB],
                 messagesMap := [("c1", []), ("c2", [])],
                 currentId := some "c1" },
    conversations := [convA, convB], currentConversationId := some "c1",
    messages := [] }

/-- Witness for C4: deleting the current conversation switches to the next. -/
theorem delete_conversation_switches_or_clears_w :
    (ctxDeleteConversation "c1" twoConvState).currentConversationId =
      some convB.id :=
  ((delete_conversation_switches_or_clears "c1" twoConvState rfl).1 rfl).2
    convB [] (by decide)

/-- A minimal JSON value domain for the raw localStorage layer. -/
inductive JsValue where
  | jnull : JsValue
  | jstr : String → JsValue
  | jarr : List JsValue → JsValue

/-- ECMAScript JSON.parse coerces its argument to a string first: a null
argument (the value getItem returns for a missing key) becomes the
four-character string null. -/
def jsToStringArg : Option String → String
  | none => "null"
  | some s => s

/-- JSON.parse on a nullable argument: the grammar itself stays abstract (the
parameter parse, none modelling a thrown SyntaxError); the ToString coercion
of null is explicit. -/
def jsJsonParse (parse : String → Option JsValue) (s : Option String) :
    Option JsValue :=
  parse (jsToStringArg s)

/-- storageService.js safeJsonParse (lines 29-35): JSON.parse inside try/catch;
a parse exception (none) yields the fallback. -/
def safeJsonParse (parse : String → Option JsValue) (str : Option String)
    (fallback : JsValue) : JsValue :=
  match jsJsonParse parse str with
  | some v => v
  | none => fallback

/-- The storage key of the conversations list (storageService.js line 10). -/
def CONVERSATIONS_KEY : String := "finance_chatbot_conversations"

/-- localStorage.getItem on a raw string store: none models the null returned
for a missing key. -/
def rawGetItem (store : List (String × String)) (k : String) : Option String :=
  (store.find? (fun kv => kv.1 = k)).map (fun kv => kv.2)

/-- storageService.js getConversations (lines 41-44) at the raw string layer. -/
def rawGetConversations (parse : String → Option JsValue)
    (store : List (String × String)) : JsValue :=
  safeJsonParse parse (rawGetItem store CONVERSATIONS_KEY) (JsValue.jarr [])

/-- storageService.js getMessages (lines 205-208) at the raw string layer; the
key is the conversation key base followed by the conversation id. -/
def rawGetMessages (parse : String → Option JsValue)
    (store : List (String × String)) (convId : String) : JsValue :=
  safeJsonParse parse
    (rawGetItem store ("finance_chatbot_conversation_" ++ convId))
    (JsValue.jarr [])

/-- Restricted model of the platform JSON.parse, covering only the inputs the
theorems below exercise: the string null parses successfully to the JSON null
value (the ECMAScript behaviour that makes JSON.parse(null) return null rather
than throw), the string with an open and close bracket parses to an empty
array, and every other string here stands for unparseable text. -/
def jsonParseModel (s : String) : Option JsValue :=
  if s = "null" then some JsValue.jnull
  else if s = "[]" then some (JsValue.jarr [])
  else none

/-- Whether a JSON value is an array. -/
def JsValue.isArray : JsValue → Bool
  | JsValue.jarr _ => true
  | _ => false

/-- Claim C10, showing the bug it exposes: with nothing stored, getItem yields
null, JSON.parse coerces it to the string null and successfully returns the
JSON null value, so safeJsonParse never reaches its fallback and both
getConversations and getMessages return null instead of an array —
contradicting their own documented Array return (getConversation then throws
calling find on null).  A stored string that genuinely fails to parse does
reach the fallback, as the claim says. -/
theorem getConversations_missing_item_returns_null :
    rawGetConversations jsonParseModel [] = JsValue.jnull ∧
    (rawGetConversations jsonParseModel []).isArray = false ∧
    rawGetMessages jsonParseModel [] "c1" = JsValue.jnull ∧
    (∀ parse fb s, parse s = none →
       safeJsonParse parse (some s) fb = fb) := by
  refine ⟨rfl, rfl, rfl, ?_⟩
  intro parse fb s h
  unfold safeJsonParse jsJsonParse jsToStringArg
  rw [h]

/-- Witness for C10's fallback clause: an unparseable stored string yields the
fallback empty array. -/
theorem getConversations_missing_item_returns_null_w :
    safeJsonParse jsonParseModel (some "oops") (JsValue.jarr []) =
      JsValue.jarr [] :=
  getConversations_missing_item_returns_null.2.2.2 jsonParseModel
    (JsValue.jarr []) "oops" rfl
